import Mathlib

/-!
Verification of the tick-classification and turnover-aggregation core of the
`gfdl_future` repository.  The two source files, `gfdl_future.py` and
`turnover_flow_scanner.py`, are shallowly embedded below: Python numbers are
modelled as `ℚ`, Python strings as `String`, dictionaries as association lists
or functions into `Option`, and the `in` substring test as an executable
`containsSub`.  Early `return`s become `Option`/record results.
-/

/-- Character-list prefix test, used to model Python's substring operator. -/
def charsLead : List Char → List Char → Bool
  | [], _ => true
  | _ :: _, [] => false
  | a :: as, b :: bs => a == b && charsLead as bs

/-- Predicate `charsSub pat s` is true when `pat` occurs contiguously inside `s`. -/
def charsSub (pat : List Char) : List Char → Bool
  | [] => charsLead pat []
  | c :: cs => charsLead pat (c :: cs) || charsSub pat cs

/-- Models Python's `pat in s` substring containment test. -/
def containsSub (s pat : String) : Bool :=
  charsSub pat.data s.data

/-- Numeric value of a list of decimal digit characters (models `int` on a
digit string). -/
def natFromDigits (ds : List Char) : ℕ :=
  ds.foldl (fun n c => n * 10 + (c.toNat - 48)) 0

namespace Gfdl

/-- The `SYMBOLS_TO_MONITOR` list from `gfdl_future.py`. -/
def SYMBOLS_TO_MONITOR : List String :=
  ["SBIN24FEB26FUT", "HDFCBANK24FEB26FUT", "ICICIBANK24FEB26FUT", "BANKNIFTY24FEB26FUT"]

/-- The `LOT_SIZES` dictionary from `gfdl_future.py`, in insertion order. -/
def LOT_SIZES : List (String × ℚ) :=
  [("BANKNIFTY", 30), ("HDFCBANK", 550), ("ICICIBANK", 700), ("SBIN", 750)]

/-- The `DEFAULT_LOT_SIZE` constant from `gfdl_future.py`. -/
def DEFAULT_LOT_SIZE : ℚ := 75

/-- Function `lots_from_oi_change` from `gfdl_future.py`: the first `LOT_SIZES` entry whose
name occurs in the symbol gives the lot size (default 75), and the result is
`int(abs(oi_change) / lot_size)` (truncation of a non-negative value = floor). -/
def lots_from_oi_change (symbol : String) (oi_change : ℚ) : ℕ :=
  let lot_size :=
    match LOT_SIZES.find? (fun p => containsSub symbol p.1) with
    | some p => p.2
    | none => DEFAULT_LOT_SIZE
  if lot_size = 0 then 0
  else (⌊|oi_change| / lot_size⌋).toNat

/-- Function `lot_bucket` from `gfdl_future.py`: five ordered tiers, first match wins. -/
def lot_bucket (lots : ℕ) : String :=
  if lots ≥ 200 then "EXTREME HIGH"
  else if lots ≥ 150 then "EXTRA HIGH"
  else if lots ≥ 100 then "HIGH"
  else if lots ≥ 75 then "MEDIUM"
  else if lots ≥ 1 then "LOW"
  else "IGNORE"

/-- Function `classify_option` from `gfdl_future.py` (the unused `symbol` parameter is
kept to mirror the source signature). -/
def classify_option (oi_change price_change : ℚ) (symbol : String) : String :=
  let _ := symbol
  if price_change = 0 then
    if oi_change > 0 then "HEDGING"
    else if oi_change < 0 then "REMOVE FROM HEDGE"
    else "Indecisive Movement"
  else if oi_change > 0 then
    if price_change > 0 then "BUYER(LONG)"
    else "WRITER(SHORT)"
  else if oi_change < 0 then
    if price_change > 0 then "REMOVE FROM SHORT"
    else "REMOVE FROM LONG"
  else "Indecisive Movement"

/-- The underlying-identification chain of `get_option_moneyness` (lines
161-164 of `gfdl_future.py`, also repeated in `process_data`). -/
def underlyingOf (symbol : String) : Option String :=
  if containsSub symbol "HDFCBANK" then some "HDFCBANK"
  else if containsSub symbol "ICICIBANK" then some "ICICIBANK"
  else if containsSub symbol "SBIN" then some "SBIN"
  else if containsSub symbol "BANKNIFTY" then some "BANKNIFTY"
  else none

/-- The `future_prices` dictionary: underlying name to latest future price,
absent keys modelled as `none` (Python `dict.get`). -/
abbrev FuturePrices := String → Option ℚ

/-- The initial `future_prices` dictionary of `gfdl_future.py`: the four
underlyings mapped to 0. -/
def initialFuturePrices : FuturePrices := fun u =>
  if u = "BANKNIFTY" ∨ u = "HDFCBANK" ∨ u = "ICICIBANK" ∨ u = "SBIN" then some 0 else none

/-- The strike/option-type extraction of `get_option_moneyness`:
`re.search(r".*?(\d{2})(\d+)(CE|PE)$", symbol)`.  The regex matches exactly
when the symbol ends in `CE`/`PE` preceded by at least three digits; the lazy
prefix makes group 1 the first two digits of the maximal trailing digit run
and group 2 (the strike) the remaining digits of that run. -/
def parseStrike (symbol : String) : Option (ℕ × String) :=
  let rev := symbol.data.reverse
  match rev with
  | 'E' :: 'C' :: rest =>
    let run := rest.takeWhile (fun c => c.isDigit)
    if 3 ≤ run.length then some (natFromDigits (run.reverse.drop 2), "CE") else none
  | 'E' :: 'P' :: rest =>
    let run := rest.takeWhile (fun c => c.isDigit)
    if 3 ≤ run.length then some (natFromDigits (run.reverse.drop 2), "PE") else none
  | _ => none

/-- Line 183 of `gfdl_future.py`: `atm_band = future_price * 0.001`. -/
def atm_band_of (future_price : ℚ) : ℚ := future_price * (1 / 1000)

/-- The zone decision of `get_option_moneyness` (lines 182-201 of
`gfdl_future.py`), after strike and option type have been extracted. -/
def moneynessZone (option_type : String) (strike future_price : ℚ) : String :=
  let atm_band := atm_band_of future_price
  if |future_price - strike| ≤ atm_band then "ATM"
  else
    let is_itm := (option_type == "CE" && decide (strike < future_price)) ||
                  (option_type == "PE" && decide (strike > future_price))
    if is_itm then "ITM" else "OTM"

/-- Function `get_option_moneyness` from `gfdl_future.py`. -/
def get_option_moneyness (symbol : String) (future_prices : FuturePrices) : String :=
  if containsSub symbol "FUT" then "N/A"
  else
    match underlyingOf symbol with
    | none => "N/A"
    | some underlying =>
      match future_prices underlying with
      | none => "OTM"
      | some future_price =>
        if future_price = 0 then "OTM"
        else
          match parseStrike symbol with
          | none => "N/A"
          | some (strike_price, option_type) =>
            moneynessZone option_type (strike_price : ℚ) future_price

/-- The `oi_roc` computation of `process_data` (lines 334-337 of
`gfdl_future.py`): Python raises `ZeroDivisionError` when the prior open
interest is zero and the handler substitutes `0.0`. -/
def oiRocOf (oi_chg oi_prev : ℚ) : ℚ :=
  if oi_prev = 0 then 0 else oi_chg / oi_prev * 100

/-- One entry of `symbol_data_state`. -/
structure SymbolState where
  price : ℚ
  price_prev : ℚ
  oi : ℚ
  oi_prev : ℚ
deriving DecidableEq

/-- The fields of an incoming data packet that `process_data` reads. -/
structure Tick where
  instrumentIdentifier : Option String
  lastTradePrice : Option ℚ
  openInterest : Option ℚ

/-- The data carried by an alert dispatched from `process_data` (the
arguments handed to `format_alert_message`/`send_alert`). -/
structure AlertInfo where
  symbol : String
  action : String
  bucket : String
  lots : ℕ
  oi_chg : ℚ
  oi_roc : ℚ
  moneyness : String
deriving DecidableEq

/-- The outcome of one `process_data` call: the updated `symbol_data_state`,
the updated `future_prices`, and the alert sent, if any. -/
structure ProcResult where
  states : String → Option SymbolState
  future_prices : FuturePrices
  alert : Option AlertInfo

/-- The initial `symbol_data_state` of `gfdl_future.py`: every monitored
symbol starts with all four fields 0. -/
def symbolDataStateInit : String → Option SymbolState := fun s =>
  if s ∈ SYMBOLS_TO_MONITOR then some ⟨0, 0, 0, 0⟩ else none

/-- Function `process_data` from `gfdl_future.py` (lines 287-358), with the Telegram
dispatch replaced by returning the alert data. -/
def process_data (states : String → Option SymbolState) (future_prices : FuturePrices)
    (data : Tick) : ProcResult :=
  match data.instrumentIdentifier with
  | none => ⟨states, future_prices, none⟩
  | some symbol =>
    if symbol = "" then ⟨states, future_prices, none⟩
    else
      match states symbol with
      | none => ⟨states, future_prices, none⟩
      | some st =>
        match data.lastTradePrice with
        | none => ⟨states, future_prices, none⟩
        | some new_price =>
          let fp' : FuturePrices :=
            if containsSub symbol "FUT" then
              match underlyingOf symbol with
              | some u =>
                if new_price > 0 then fun k => if k = u then some new_price else future_prices k
                else future_prices
              | none => future_prices
            else future_prices
          match data.openInterest with
          | none => ⟨states, fp', none⟩
          | some new_oi =>
            let st' : SymbolState := ⟨new_price, st.price, new_oi, st.oi⟩
            let states' := fun k => if k = symbol then some st' else states k
            if st'.oi_prev = 0 then ⟨states', fp', none⟩
            else
              let oi_chg := st'.oi - st'.oi_prev
              if oi_chg = 0 then ⟨states', fp', none⟩
              else
                let price_chg := st'.price - st'.price_prev
                let oi_roc := oiRocOf oi_chg st'.oi_prev
                let lots := lots_from_oi_change symbol oi_chg
                let is_future := containsSub symbol "FUT"
                let alert_condition_met := is_future && decide (lots > 50)
                if alert_condition_met then
                  let bucket := lot_bucket lots
                  if bucket ≠ "IGNORE" then
                    ⟨states', fp',
                      some ⟨symbol, classify_option oi_chg price_chg symbol, bucket, lots,
                            oi_chg, oi_roc, "N/A"⟩⟩
                  else ⟨states', fp', none⟩
                else ⟨states', fp', none⟩

end Gfdl

namespace Scanner

/-- The `TRACK_SYMBOLS` list from `turnover_flow_scanner.py`. -/
def TRACK_SYMBOLS : List String := ["BANKNIFTY", "HDFCBANK", "ICICIBANK"]

/-- The `ATM_RANGE` dictionary from `turnover_flow_scanner.py`. -/
def ATM_RANGE : List (String × ℚ) := [("BANKNIFTY", 100), ("HDFCBANK", 5), ("ICICIBANK", 10)]

/-- Lookup `ATM_RANGE.get(symbol, 0)` with default 0. -/
def atmRangeGet (symbol : String) : ℚ :=
  match ATM_RANGE.find? (fun p => p.1 == symbol) with
  | some p => p.2
  | none => 0

/-- Function `classify_strike` from `turnover_flow_scanner.py` (lines 49-57). -/
def classify_strike (symbol : String) (strike : ℚ) (option_type : String)
    (future_price : ℚ) : Option String :=
  let width := atmRangeGet symbol
  if |strike - future_price| ≤ width then some "ATM"
  else if option_type == "CE" then
    some (if strike < future_price - width then "ITM" else "OTM")
  else if option_type == "PE" then
    some (if strike > future_price + width then "ITM" else "OTM")
  else none

/-- The same decision procedure as `classify_strike`, with the ATM half-width
passed as an explicit parameter instead of looked up from `ATM_RANGE` — used
to state that the width `classify_strike` applies is exactly the per-symbol
configured constant. -/
def classifyStrikeW (width strike : ℚ) (option_type : String)
    (future_price : ℚ) : Option String :=
  if |strike - future_price| ≤ width then some "ATM"
  else if option_type == "CE" then
    some (if strike < future_price - width then "ITM" else "OTM")
  else if option_type == "PE" then
    some (if strike > future_price + width then "ITM" else "OTM")
  else none

/-- The dictionary `parse_alert` returns. -/
structure ParsedAlert where
  symbol : String
  turnover : ℚ
  action_type : String
  zone : Option String
  current_future : Option ℚ
deriving DecidableEq

/-- The results of the regular-expression extraction that opens `parse_alert`
(lines 63-69 and 88 of `turnover_flow_scanner.py`), taken as the input of the
embedded function: `textUpper` is the uppercased alert text the groups were
matched against, `oiMatch` the signed OI-change group with commas and a
leading plus stripped, `optMatch` the `(\d+)(CE|PE)` match on the symbol. -/
structure AlertFields where
  textUpper : String
  symbolMatch : Option String
  lotMatch : Option ℕ
  priceMatch : Option ℚ
  oiMatch : Option ℤ
  futureMatch : Option ℚ
  optMatch : Option (ℕ × String)

/-- Function `parse_alert` from `turnover_flow_scanner.py` (lines 62-128), from the
regex extraction results onward. -/
def parse_alert (f : AlertFields) : Option ParsedAlert :=
  match f.symbolMatch, f.lotMatch with
  | some symbol_full, some lots =>
    let price : ℚ := f.priceMatch.getD 0
    let future_price : Option ℚ := f.futureMatch
    let oi_qty : ℕ := (f.oiMatch.getD 0).natAbs
    match TRACK_SYMBOLS.find? (fun s => containsSub symbol_full s) with
    | none => none
    | some base_symbol =>
      let zoneTurnover : Option String × ℚ :=
        match f.optMatch with
        | some (strike, option_type) =>
          let zone :=
            match future_price with
            | some fp =>
              if fp ≠ 0 then classify_strike base_symbol (strike : ℚ) option_type fp
              else none
            | none => none
          (zone, (oi_qty : ℚ) * price)
        | none => (none, (lots : ℚ) * 100000)
      let action_type : Option String :=
        if containsSub f.textUpper "CALL WRITER" then some "CALL_WRITER"
        else if containsSub f.textUpper "PUT WRITER" then some "PUT_WRITER"
        else if containsSub f.textUpper "CALL BUY" then some "CALL_BUY"
        else if containsSub f.textUpper "PUT BUY" then some "PUT_BUY"
        else if containsSub f.textUpper "SHORT COVERING" then
          some (match f.optMatch with
                | some (_, ot) => if ot == "CE" then "CALL_SC" else "PUT_SC"
                | none => "FUTURE_SC")
        else if containsSub f.textUpper "LONG UNWINDING" then
          some (match f.optMatch with
                | some (_, ot) => if ot == "CE" then "CALL_UNW" else "PUT_UNW"
                | none => "FUTURE_UNW")
        else if containsSub f.textUpper "FUTURE BUY" then some "FUTURE_BUY"
        else if containsSub f.textUpper "FUTURE SELL" then some "FUTURE_SELL"
        else none
      match action_type with
      | none => none
      | some act =>
        some ⟨base_symbol, zoneTurnover.2, act, zoneTurnover.1, future_price⟩
  | _, _ => none

/-- The buffering step of `message_handler` (lines 130-135):
append to `alerts_buffer` when `parse_alert` succeeds. -/
def record (buf : List ParsedAlert) (f : AlertFields) : List ParsedAlert :=
  match parse_alert f with
  | some p => buf ++ [p]
  | none => buf

/-- The zone key used by the accumulation loop of `process_summary`
(lines 156-159): the zone when truthy, `"TOTAL"` otherwise. -/
def zoneKey (z : Option String) : String :=
  match z with
  | some s => if s = "" then "TOTAL" else s
  | none => "TOTAL"

/-- The aggregation key `(symbol, action_type, zone-or-TOTAL)` of one
buffered alert. -/
def alertKey (a : ParsedAlert) : String × String × String :=
  (a.symbol, a.action_type, zoneKey a.zone)

/-- One step of the accumulation loop of `process_summary`:
`data[sym][act][z] += t` on the nested `defaultdict(float)`. -/
def addAlert (d : String × String × String → ℚ) (a : ParsedAlert) :
    String × String × String → ℚ :=
  fun k => if k = alertKey a then d k + a.turnover else d k

/-- The turnover table built by `process_summary` over one batch, as a total
map from `(symbol, action_type, zone)` keys (the `defaultdict` default 0.0
makes absent keys read as 0). -/
def aggregateBatch (batch : List ParsedAlert) : String × String × String → ℚ :=
  batch.foldl addAlert (fun _ => 0)

/-- Function `process_summary` from `turnover_flow_scanner.py` (lines 137-159), with
the message delivery replaced by returning the aggregated table: on an empty
buffer it returns immediately with no report; otherwise it takes the buffered
batch, clears the buffer, and reports the batch's aggregation. -/
def process_summary (alerts_buffer : List ParsedAlert) :
    Option (String × String × String → ℚ) × List ParsedAlert :=
  if alerts_buffer.isEmpty then (none, alerts_buffer)
  else (some (aggregateBatch alerts_buffer), [])

end Scanner

/-!  ## Claim theorems  -/

/-- The §4.3 classification rules exactly as the spec states them: a flat,
order-sensitive, first-match-wins rule list over the signs of the
open-interest and price deltas (spec-worded definition, to be compared with
the source's `classify_option`). -/
def actionRulesSpec (oiDelta priceDelta : ℚ) : String :=
  if priceDelta = 0 ∧ oiDelta > 0 then "HEDGING"
  else if priceDelta = 0 ∧ oiDelta < 0 then "REMOVE FROM HEDGE"
  else if oiDelta > 0 ∧ priceDelta > 0 then "BUYER(LONG)"
  else if oiDelta > 0 ∧ priceDelta ≤ 0 then "WRITER(SHORT)"
  else if oiDelta < 0 ∧ priceDelta > 0 then "REMOVE FROM SHORT"
  else if oiDelta < 0 ∧ priceDelta ≤ 0 then "REMOVE FROM LONG"
  else "Indecisive Movement"

/-- C1: for every open-interest delta and price delta (hence in particular
for every processed tick with a nonzero open-interest delta), the action
category computed by `classify_option` is exactly the total deterministic
function of the two delta signs given by the spec's ordered §4.3 rules, with
the price-unchanged branches taking precedence, across all nine sign
combinations. -/
theorem classify_option_matches_spec_rules (oi_change price_change : ℚ) (symbol : String) :
    Gfdl.classify_option oi_change price_change symbol =
      actionRulesSpec oi_change price_change := by
  unfold Gfdl.classify_option actionRulesSpec
  rcases lt_trichotomy price_change 0 with hp | hp | hp
  · rcases lt_trichotomy oi_change 0 with ho | ho | ho
    · simp [hp.ne, ho.ne, hp.not_lt, ho.not_lt, ho, hp.le]
    · simp [hp.ne, ho, lt_irrefl]
    · simp [hp.ne, ho, hp.not_lt, hp.le, ho.ne', ho.not_lt]
  · rcases lt_trichotomy oi_change 0 with ho | ho | ho
    · simp [hp, ho, ho.ne, ho.not_lt]
    · simp [hp, ho, lt_irrefl]
    · simp [hp, ho, ho.ne', ho.not_lt]
  · rcases lt_trichotomy oi_change 0 with ho | ho | ho
    · simp [hp.ne', ho, hp, ho.ne, ho.not_lt, hp.not_le]
    · simp [hp.ne', ho, lt_irrefl]
    · simp [hp.ne', ho, hp, ho.ne', hp.not_le, ho.not_lt]

/-- C2: with the initial all-zero `symbol_data_state`, the first processed
tick never yields an alert (it only initializes state); and on any state, a
tick whose open interest equals the stored open interest for its symbol
(zero open-interest delta) yields no alert either, whatever the price did. -/
theorem first_and_unchanged_oi_ticks_silent :
    (∀ (fp : Gfdl.FuturePrices) (t : Gfdl.Tick),
        (Gfdl.process_data Gfdl.symbolDataStateInit fp t).alert = none) ∧
    (∀ (states : String → Option Gfdl.SymbolState) (fp : Gfdl.FuturePrices)
        (t : Gfdl.Tick) (sym : String) (st : Gfdl.SymbolState) (oi : ℚ),
        t.instrumentIdentifier = some sym → states sym = some st →
        t.openInterest = some oi → oi = st.oi →
        (Gfdl.process_data states fp t).alert = none) := by
  constructor
  · intro fp t
    rcases hid : t.instrumentIdentifier with _ | sym
    · simp [Gfdl.process_data, hid]
    · by_cases hs : sym = ""
      · simp [Gfdl.process_data, hid, hs]
      · by_cases hmem : sym ∈ Gfdl.SYMBOLS_TO_MONITOR
        · rcases hp : t.lastTradePrice with _ | p
          · simp [Gfdl.process_data, hid, hs, hp, Gfdl.symbolDataStateInit, hmem]
          · rcases hoi : t.openInterest with _ | oi
            · simp [Gfdl.process_data, hid, hs, hp, hoi, Gfdl.symbolDataStateInit, hmem]
            · simp [Gfdl.process_data, hid, hs, hp, hoi, Gfdl.symbolDataStateInit, hmem]
        · simp [Gfdl.process_data, hid, hs, Gfdl.symbolDataStateInit, hmem]
  · intro states fp t sym st oi hid hst hoi heq
    by_cases hs : sym = ""
    · simp [Gfdl.process_data, hid, hs]
    · rcases hp : t.lastTradePrice with _ | p
      · simp [Gfdl.process_data, hid, hs, hst, hp]
      · by_cases h0 : st.oi = 0
        · simp [Gfdl.process_data, hid, hs, hst, hp, hoi, h0]
        · simp [Gfdl.process_data, hid, hs, hst, hp, hoi, h0, heq, sub_self]

/-- Witness for C2 at a concrete input: stored open interest 1000 and a tick
repeating open interest 1000 with a price move produce no alert. -/
theorem first_and_unchanged_oi_ticks_silent_witness :
    (Gfdl.process_data
        (fun s => if s = "SBIN24FEB26FUT" then some ⟨100, 90, 1000, 900⟩ else none)
        Gfdl.initialFuturePrices
        ⟨some "SBIN24FEB26FUT", some 105, some 1000⟩).alert = none :=
  first_and_unchanged_oi_ticks_silent.2
    (fun s => if s = "SBIN24FEB26FUT" then some ⟨100, 90, 1000, 900⟩ else none)
    Gfdl.initialFuturePrices ⟨some "SBIN24FEB26FUT", some 105, some 1000⟩
    "SBIN24FEB26FUT" ⟨100, 90, 1000, 900⟩ 1000 rfl (by simp) rfl rfl

/-- C10: whenever a tick arrives for a symbol whose stored open interest is
zero — not only the literal first tick — `process_data` treats it as
(re)initialization: the per-symbol state is overwritten with the tick's price
and open interest (the previous-value fields receiving the old stored values)
and no alert is produced, because the baseline is detected by the zero stored
open interest rather than a one-shot flag. -/
theorem zero_stored_oi_reinitializes
    (states : String → Option Gfdl.SymbolState) (fp : Gfdl.FuturePrices)
    (t : Gfdl.Tick) (sym : String) (st : Gfdl.SymbolState) (p oi : ℚ)
    (hid : t.instrumentIdentifier = some sym) (hs : sym ≠ "")
    (hst : states sym = some st) (hp : t.lastTradePrice = some p)
    (hoi : t.openInterest = some oi) (h0 : st.oi = 0) :
    (Gfdl.process_data states fp t).alert = none ∧
    (Gfdl.process_data states fp t).states sym = some ⟨p, st.price, oi, st.oi⟩ := by
  constructor <;> simp [Gfdl.process_data, hid, hs, hst, hp, hoi, h0]

/-- Witness for C10 at a concrete input: a non-initial state whose stored
open interest is zero is overwritten by the tick and produces no alert. -/
theorem zero_stored_oi_reinitializes_witness :
    (Gfdl.process_data
        (fun s => if s = "BANKNIFTY24FEB26FUT" then some ⟨200, 150, 0, 500⟩ else none)
        Gfdl.initialFuturePrices
        ⟨some "BANKNIFTY24FEB26FUT", some 210, some 800⟩).alert = none ∧
    (Gfdl.process_data
        (fun s => if s = "BANKNIFTY24FEB26FUT" then some ⟨200, 150, 0, 500⟩ else none)
        Gfdl.initialFuturePrices
        ⟨some "BANKNIFTY24FEB26FUT", some 210, some 800⟩).states "BANKNIFTY24FEB26FUT" =
      some ⟨210, 200, 800, 0⟩ :=
  zero_stored_oi_reinitializes
    (fun s => if s = "BANKNIFTY24FEB26FUT" then some ⟨200, 150, 0, 500⟩ else none)
    Gfdl.initialFuturePrices ⟨some "BANKNIFTY24FEB26FUT", some 210, some 800⟩
    "BANKNIFTY24FEB26FUT" ⟨200, 150, 0, 500⟩ 210 800
    rfl (by simp) (by simp) rfl rfl rfl

/-- C8: the rate-of-change computation of `process_data` yields exactly 0
whenever the prior open interest is zero, for every open-interest delta (the
`ZeroDivisionError` handler substitutes 0.0; the embedding is total, so no
division error can occur). -/
theorem oi_roc_zero_on_zero_prior (oi_chg oi_prev : ℚ) (h : oi_prev = 0) :
    Gfdl.oiRocOf oi_chg oi_prev = 0 := by
  simp [Gfdl.oiRocOf, h]

/-- C4: once a tick has passed the gates of `process_data` (valid symbol,
price and open interest present, nonzero stored open interest, nonzero
open-interest delta), a future-kind symbol triggers an immediate alert if and
only if its lot count strictly exceeds the futures threshold 50 and its lot
bucket is not IGNORE; an option-kind symbol never triggers one (options
alerting is disabled in the source). -/
theorem alert_gate_futures_iff_options_never
    (states : String → Option Gfdl.SymbolState) (fp : Gfdl.FuturePrices)
    (t : Gfdl.Tick) (sym : String) (st : Gfdl.SymbolState) (p oi : ℚ)
    (hid : t.instrumentIdentifier = some sym) (hs : sym ≠ "")
    (hst : states sym = some st) (hp : t.lastTradePrice = some p)
    (hoi : t.openInterest = some oi) (h0 : st.oi ≠ 0) (hchg : oi - st.oi ≠ 0) :
    (containsSub sym "FUT" = true →
      ((Gfdl.process_data states fp t).alert.isSome ↔
        50 < Gfdl.lots_from_oi_change sym (oi - st.oi) ∧
          Gfdl.lot_bucket (Gfdl.lots_from_oi_change sym (oi - st.oi)) ≠ "IGNORE")) ∧
    (containsSub sym "FUT" = false →
      (Gfdl.process_data states fp t).alert = none) := by
  constructor
  · intro hfut
    by_cases hl : 50 < Gfdl.lots_from_oi_change sym (oi - st.oi)
    · by_cases hb : Gfdl.lot_bucket (Gfdl.lots_from_oi_change sym (oi - st.oi)) = "IGNORE"
      · simp [Gfdl.process_data, hid, hs, hst, hp, hoi, h0, hchg, hfut, hl, hb]
      · simp [Gfdl.process_data, hid, hs, hst, hp, hoi, h0, hchg, hfut, hl, hb]
    · simp [Gfdl.process_data, hid, hs, hst, hp, hoi, h0, hchg, hfut, hl]
  · intro hfut
    simp [Gfdl.process_data, hid, hs, hst, hp, hoi, h0, hchg, hfut]

/-- Witness for C4 at a concrete input: an SBIN future tick moving open
interest by 51 lots (38250 contracts at lot size 750) is alerted. -/
theorem alert_gate_futures_iff_options_never_witness :
    ((Gfdl.process_data
        (fun s => if s = "SBIN24FEB26FUT" then some ⟨100, 0, 1000, 0⟩ else none)
        Gfdl.initialFuturePrices
        ⟨some "SBIN24FEB26FUT", some 105, some 39250⟩).alert.isSome ↔
      50 < Gfdl.lots_from_oi_change "SBIN24FEB26FUT" (39250 - 1000) ∧
        Gfdl.lot_bucket (Gfdl.lots_from_oi_change "SBIN24FEB26FUT" (39250 - 1000)) ≠
          "IGNORE") :=
  (alert_gate_futures_iff_options_never
    (fun s => if s = "SBIN24FEB26FUT" then some ⟨100, 0, 1000, 0⟩ else none)
    Gfdl.initialFuturePrices ⟨some "SBIN24FEB26FUT", some 105, some 39250⟩
    "SBIN24FEB26FUT" ⟨100, 0, 1000, 0⟩ 105 39250
    rfl (by simp) (by simp) rfl rfl (by norm_num) (by norm_num)).1 (by decide)

/-- Witness for C8 at a concrete input. -/
theorem oi_roc_zero_on_zero_prior_witness :
    (0 : ℚ) = 0 ∧ Gfdl.oiRocOf 750 0 = 0 :=
  ⟨rfl, oi_roc_zero_on_zero_prior 750 0 rfl⟩

/-- Outside the ATM band, being below the future price is the same as being
below the bottom of the band. -/
theorem lt_band_iff (b strike F : ℚ) (hb : 0 ≤ b) (h : b < |F - strike|) :
    (strike < F ↔ strike < F - b) := by
  rcases abs_cases (F - strike) with ⟨he, hsign⟩ | ⟨he, hsign⟩ <;>
    (rw [he] at h; constructor <;> intro h2 <;> linarith)

/-- Outside the ATM band, being above the future price is the same as being
above the top of the band. -/
theorem gt_band_iff (b strike F : ℚ) (hb : 0 ≤ b) (h : b < |F - strike|) :
    (F < strike ↔ F + b < strike) := by
  rcases abs_cases (F - strike) with ⟨he, hsign⟩ | ⟨he, hsign⟩ <;>
    (rw [he] at h; constructor <;> intro h2 <;> linarith)

/-- C5: for a known positive future price, both moneyness procedures follow
the claimed characterization — ATM exactly when the strike is within the band
of the future price; otherwise a CALL is ITM exactly when
`strike < futurePrice - band` and OTM otherwise, and a PUT is ITM exactly
when `strike > futurePrice + band` and OTM otherwise — where the band is
`ATM_RANGE.get(symbol, 0)` for the scanner's `classify_strike` and
`futurePrice * 0.001` for the gfdl `moneynessZone`. -/
theorem moneyness_zone_characterization (sym : String) (strike F : ℚ) (hF : 0 < F) :
    (Scanner.classify_strike sym strike "CE" F = some "ATM" ↔
        |strike - F| ≤ Scanner.atmRangeGet sym) ∧
    (Scanner.classify_strike sym strike "CE" F = some "ITM" ↔
        ¬ |strike - F| ≤ Scanner.atmRangeGet sym ∧ strike < F - Scanner.atmRangeGet sym) ∧
    (Scanner.classify_strike sym strike "CE" F = some "OTM" ↔
        ¬ |strike - F| ≤ Scanner.atmRangeGet sym ∧ ¬ strike < F - Scanner.atmRangeGet sym) ∧
    (Scanner.classify_strike sym strike "PE" F = some "ATM" ↔
        |strike - F| ≤ Scanner.atmRangeGet sym) ∧
    (Scanner.classify_strike sym strike "PE" F = some "ITM" ↔
        ¬ |strike - F| ≤ Scanner.atmRangeGet sym ∧ F + Scanner.atmRangeGet sym < strike) ∧
    (Scanner.classify_strike sym strike "PE" F = some "OTM" ↔
        ¬ |strike - F| ≤ Scanner.atmRangeGet sym ∧ ¬ F + Scanner.atmRangeGet sym < strike) ∧
    (Gfdl.moneynessZone "CE" strike F = "ATM" ↔ |F - strike| ≤ Gfdl.atm_band_of F) ∧
    (Gfdl.moneynessZone "CE" strike F = "ITM" ↔
        ¬ |F - strike| ≤ Gfdl.atm_band_of F ∧ strike < F - Gfdl.atm_band_of F) ∧
    (Gfdl.moneynessZone "CE" strike F = "OTM" ↔
        ¬ |F - strike| ≤ Gfdl.atm_band_of F ∧ ¬ strike < F - Gfdl.atm_band_of F) ∧
    (Gfdl.moneynessZone "PE" strike F = "ATM" ↔ |F - strike| ≤ Gfdl.atm_band_of F) ∧
    (Gfdl.moneynessZone "PE" strike F = "ITM" ↔
        ¬ |F - strike| ≤ Gfdl.atm_band_of F ∧ F + Gfdl.atm_band_of F < strike) ∧
    (Gfdl.moneynessZone "PE" strike F = "OTM" ↔
        ¬ |F - strike| ≤ Gfdl.atm_band_of F ∧ ¬ F + Gfdl.atm_band_of F < strike) := by
  have hb : (0:ℚ) ≤ Gfdl.atm_band_of F := by
    unfold Gfdl.atm_band_of
    positivity
  refine ⟨?_, ?_, ?_, ?_, ?_, ?_, ?_, ?_, ?_, ?_, ?_, ?_⟩
  · by_cases hATM : |strike - F| ≤ Scanner.atmRangeGet sym <;>
      by_cases hlt : strike < F - Scanner.atmRangeGet sym <;>
      simp [Scanner.classify_strike, hATM, hlt]
  · by_cases hATM : |strike - F| ≤ Scanner.atmRangeGet sym <;>
      by_cases hlt : strike < F - Scanner.atmRangeGet sym <;>
      simp [Scanner.classify_strike, hATM, hlt]
  · by_cases hATM : |strike - F| ≤ Scanner.atmRangeGet sym <;>
      by_cases hlt : strike < F - Scanner.atmRangeGet sym <;>
      simp [Scanner.classify_strike, hATM, hlt]
  · by_cases hATM : |strike - F| ≤ Scanner.atmRangeGet sym <;>
      by_cases hgt : F + Scanner.atmRangeGet sym < strike <;>
      simp [Scanner.classify_strike, hATM, hgt]
  · by_cases hATM : |strike - F| ≤ Scanner.atmRangeGet sym <;>
      by_cases hgt : F + Scanner.atmRangeGet sym < strike <;>
      simp [Scanner.classify_strike, hATM, hgt]
  · by_cases hATM : |strike - F| ≤ Scanner.atmRangeGet sym <;>
      by_cases hgt : F + Scanner.atmRangeGet sym < strike <;>
      simp [Scanner.classify_strike, hATM, hgt]
  · by_cases hATM : |F - strike| ≤ Gfdl.atm_band_of F <;>
      by_cases hlt : strike < F <;>
      simp [Gfdl.moneynessZone, hATM, hlt]
  · by_cases hATM : |F - strike| ≤ Gfdl.atm_band_of F
    · simp [Gfdl.moneynessZone, hATM]
    · have hiff := lt_band_iff (Gfdl.atm_band_of F) strike F hb (not_le.1 hATM)
      by_cases hlt : strike < F
      · simp [Gfdl.moneynessZone, hATM, hlt, hiff.1 hlt]
      · simp [Gfdl.moneynessZone, hATM, hlt, mt hiff.2 hlt]
  · by_cases hATM : |F - strike| ≤ Gfdl.atm_band_of F
    · simp [Gfdl.moneynessZone, hATM]
    · have hiff := lt_band_iff (Gfdl.atm_band_of F) strike F hb (not_le.1 hATM)
      by_cases hlt : strike < F
      · simp [Gfdl.moneynessZone, hATM, hlt, hiff.1 hlt]
      · simp [Gfdl.moneynessZone, hATM, hlt, mt hiff.2 hlt]
  · by_cases hATM : |F - strike| ≤ Gfdl.atm_band_of F <;>
      by_cases hgt : F < strike <;>
      simp [Gfdl.moneynessZone, hATM, hgt]
  · by_cases hATM : |F - strike| ≤ Gfdl.atm_band_of F
    · simp [Gfdl.moneynessZone, hATM]
    · have hiff := gt_band_iff (Gfdl.atm_band_of F) strike F hb (not_le.1 hATM)
      by_cases hgt : F < strike
      · simp [Gfdl.moneynessZone, hATM, hgt, hiff.1 hgt]
      · simp [Gfdl.moneynessZone, hATM, hgt, mt hiff.2 hgt]
  · by_cases hATM : |F - strike| ≤ Gfdl.atm_band_of F
    · simp [Gfdl.moneynessZone, hATM]
    · have hiff := gt_band_iff (Gfdl.atm_band_of F) strike F hb (not_le.1 hATM)
      by_cases hgt : F < strike
      · simp [Gfdl.moneynessZone, hATM, hgt, hiff.1 hgt]
      · simp [Gfdl.moneynessZone, hATM, hgt, mt hiff.2 hgt]

/-- C6 counterexample: in `get_option_moneyness` the ATM half-width is
`future_price * 0.001`, so for one and the same underlying it changes from
tick to tick with the observed future price: a call ten points below the
future price is ATM when the future trades at 10000 (band 10) but ITM when
it trades at 5000 (band 5). -/
theorem atm_band_depends_on_future_price :
    Gfdl.atm_band_of 10000 = 10 ∧ Gfdl.atm_band_of 5000 = 5 ∧
    Gfdl.atm_band_of 10000 ≠ Gfdl.atm_band_of 5000 ∧
    Gfdl.get_option_moneyness "BANKNIFTY269990CE"
      (fun u => if u = "BANKNIFTY" then some 10000 else none) = "ATM" ∧
    Gfdl.get_option_moneyness "BANKNIFTY264990CE"
      (fun u => if u = "BANKNIFTY" then some 5000 else none) = "ITM" := by
  refine ⟨by norm_num [Gfdl.atm_band_of], by norm_num [Gfdl.atm_band_of],
    by norm_num [Gfdl.atm_band_of], ?_, ?_⟩
  · have h1 : containsSub "BANKNIFTY269990CE" "FUT" = false := by decide
    have h2 : Gfdl.underlyingOf "BANKNIFTY269990CE" = some "BANKNIFTY" := by decide
    have h3 : Gfdl.parseStrike "BANKNIFTY269990CE" = some (9990, "CE") := by decide
    rw [Gfdl.get_option_moneyness, h1, h2, h3]
    norm_num [Gfdl.moneynessZone, Gfdl.atm_band_of]
  · have h1 : containsSub "BANKNIFTY264990CE" "FUT" = false := by decide
    have h2 : Gfdl.underlyingOf "BANKNIFTY264990CE" = some "BANKNIFTY" := by decide
    have h3 : Gfdl.parseStrike "BANKNIFTY264990CE" = some (4990, "CE") := by decide
    rw [Gfdl.get_option_moneyness, h1, h2, h3]
    norm_num [Gfdl.moneynessZone, Gfdl.atm_band_of]

/-- C6 amended: the scanner's `classify_strike` does use a per-underlying
constant half-width — its decision is the width-parameterized procedure
applied to `ATM_RANGE.get(symbol, 0)`, which never varies with the future
price — but the gfdl `get_option_moneyness` band is `future_price * 0.001`,
a fixed percentage of the observed future price, which differs between any
future price and its double. -/
theorem atm_band_provenance :
    (∀ (sym : String) (strike : ℚ) (ot : String) (F : ℚ),
        Scanner.classify_strike sym strike ot F =
          Scanner.classifyStrikeW (Scanner.atmRangeGet sym) strike ot F) ∧
    (∀ F : ℚ, Gfdl.atm_band_of F = F * (1 / 1000)) ∧
    (∀ F : ℚ, F ≠ 0 → Gfdl.atm_band_of F ≠ Gfdl.atm_band_of (2 * F)) := by
  refine ⟨fun sym strike ot F => rfl, fun F => rfl, fun F hF h => ?_⟩
  unfold Gfdl.atm_band_of at h
  apply hF
  linarith

/-- Witness for the C6 amended theorem at a concrete future price. -/
theorem atm_band_provenance_witness :
    (1000 : ℚ) ≠ 0 ∧ Gfdl.atm_band_of 1000 ≠ Gfdl.atm_band_of (2 * 1000) :=
  ⟨by norm_num, atm_band_provenance.2.2 1000 (by norm_num)⟩

/-- C7 counterexample: with the future price table still at its initial zero
for BANKNIFTY, the resolver returns the bare string "OTM" — exactly the same
value as for a genuinely computed out-of-the-money strike at a known future
price of 50000; the returned value carries no "future price unknown" flag
that could distinguish the two cases. -/
theorem unknown_price_otm_indistinguishable :
    Gfdl.get_option_moneyness "BANKNIFTY2656000CE" Gfdl.initialFuturePrices = "OTM" ∧
    Gfdl.get_option_moneyness "BANKNIFTY2656000CE"
        (fun u => if u = "BANKNIFTY" then some 50000 else none) = "OTM" ∧
    Gfdl.get_option_moneyness "BANKNIFTY2656000CE" Gfdl.initialFuturePrices =
      Gfdl.get_option_moneyness "BANKNIFTY2656000CE"
        (fun u => if u = "BANKNIFTY" then some 50000 else none) := by
  have h1 : containsSub "BANKNIFTY2656000CE" "FUT" = false := by decide
  have h2 : Gfdl.underlyingOf "BANKNIFTY2656000CE" = some "BANKNIFTY" := by decide
  have h3 : Gfdl.parseStrike "BANKNIFTY2656000CE" = some (56000, "CE") := by decide
  have ha : Gfdl.get_option_moneyness "BANKNIFTY2656000CE" Gfdl.initialFuturePrices =
      "OTM" := by
    rw [Gfdl.get_option_moneyness, h1, h2]
    decide
  have hb : Gfdl.get_option_moneyness "BANKNIFTY2656000CE"
      (fun u => if u = "BANKNIFTY" then some 50000 else none) = "OTM" := by
    rw [Gfdl.get_option_moneyness, h1, h2, h3]
    norm_num [Gfdl.moneynessZone, Gfdl.atm_band_of]
    decide
  exact ⟨ha, hb, ha.trans hb.symm⟩

/-- C7 amended: whenever the option's underlying future price is absent from
the table or zero, moneyness resolution returns "OTM" as a conservative
default; the return value is the bare zone string, with no flag alongside it,
so the unknown-price case is not distinguishable from a computed OTM in the
returned value. -/
theorem unknown_future_price_defaults_otm (sym u : String) (fp : Gfdl.FuturePrices)
    (hfut : containsSub sym "FUT" = false) (hu : Gfdl.underlyingOf sym = some u)
    (hzero : fp u = none ∨ fp u = some 0) :
    Gfdl.get_option_moneyness sym fp = "OTM" := by
  rcases hzero with h | h <;> simp [Gfdl.get_option_moneyness, hfut, hu, h]

/-- Witness for the C7 amended theorem at a concrete input. -/
theorem unknown_future_price_defaults_otm_witness :
    Gfdl.get_option_moneyness "BANKNIFTY2656000CE" Gfdl.initialFuturePrices = "OTM" :=
  unknown_future_price_defaults_otm "BANKNIFTY2656000CE" "BANKNIFTY"
    Gfdl.initialFuturePrices (by decide) (by decide) (Or.inr (by decide))

/-- Evaluating the accumulation fold of `process_summary` at one key yields
the initial value plus the sum of the turnovers of the alerts at that key. -/
theorem foldl_addAlert_apply (batch : List Scanner.ParsedAlert)
    (d : String × String × String → ℚ) (k : String × String × String) :
    (batch.foldl Scanner.addAlert d) k =
      d k + (batch.map (fun a => if Scanner.alertKey a = k then a.turnover else 0)).sum := by
  induction batch generalizing d with
  | nil => simp
  | cons a as ih =>
    simp only [List.foldl_cons, List.map_cons, List.sum_cons, ih]
    unfold Scanner.addAlert
    by_cases hk : k = Scanner.alertKey a
    · simp [hk]
      ring
    · simp [hk, Ne.symm hk]

/-- Appending one alert to a batch adds exactly its turnover at its own key
and nothing at any other key. -/
theorem aggregate_append_single (buf : List Scanner.ParsedAlert)
    (p : Scanner.ParsedAlert) (k : String × String × String) :
    Scanner.aggregateBatch (buf ++ [p]) k =
      Scanner.aggregateBatch buf k + (if Scanner.alertKey p = k then p.turnover else 0) := by
  unfold Scanner.aggregateBatch
  rw [List.foldl_append]
  simp only [List.foldl_cons, List.foldl_nil]
  unfold Scanner.addAlert
  by_cases hk : k = Scanner.alertKey p
  · simp [hk]
  · simp [hk, Ne.symm hk]

/-- C3 counterexample: flushing a buffer holding one recorded event and then
flushing again with no intervening record yields no second ReportEvent at
all — the empty-buffer flush returns early without producing a report —
rather than an empty ReportEvent. -/
theorem second_flush_yields_no_report :
    ¬ ∃ r, (Scanner.process_summary
        ((Scanner.process_summary
          [⟨"BANKNIFTY", 100000, "FUTURE_BUY", none, none⟩]).2)).1 = some r := by
  simp [Scanner.process_summary]

/-- C3 amended: a flush of a nonempty buffer reports the buffered batch's
aggregation and resets the buffer to empty; the reported total at every key
equals the sum of the turnover contributions recorded since the previous
flush at that key (no loss, no duplication); and a second flush immediately
after, with no intervening record, yields no report at all (the source skips
the flush entirely on an empty buffer). -/
theorem flush_totals_and_reset (buf : List Scanner.ParsedAlert) (h : buf ≠ []) :
    (Scanner.process_summary buf).1 = some (Scanner.aggregateBatch buf) ∧
    (Scanner.process_summary buf).2 = [] ∧
    (∀ k, Scanner.aggregateBatch buf k =
      (buf.map (fun a => if Scanner.alertKey a = k then a.turnover else 0)).sum) ∧
    (Scanner.process_summary ((Scanner.process_summary buf).2)).1 = none := by
  have hne : buf.isEmpty = false := by
    simpa [List.isEmpty_iff] using h
  refine ⟨by simp [Scanner.process_summary, hne], by simp [Scanner.process_summary, hne],
    fun k => ?_, by simp [Scanner.process_summary, hne]⟩
  simpa using foldl_addAlert_apply buf (fun _ => 0) k

/-- Witness for the C3 amended theorem on a concrete one-element buffer. -/
theorem flush_totals_and_reset_witness :
    ([(⟨"BANKNIFTY", 100000, "FUTURE_SELL", none, none⟩ : Scanner.ParsedAlert)] ≠
        ([] : List Scanner.ParsedAlert)) ∧
    (Scanner.process_summary [(⟨"BANKNIFTY", 100000, "FUTURE_SELL", none, none⟩ :
        Scanner.ParsedAlert)]).1 =
      some (Scanner.aggregateBatch [⟨"BANKNIFTY", 100000, "FUTURE_SELL", none, none⟩]) :=
  ⟨by simp,
    (flush_totals_and_reset [⟨"BANKNIFTY", 100000, "FUTURE_SELL", none, none⟩] (by simp)).1⟩

/-- C9: every successfully parsed option alert carries turnover
(absolute open-interest delta) × (last trade price) — not its bucketed lot
count — every parsed future alert carries turnover lots × 100000, and the
aggregation adds exactly the carried turnover to the event's own bucket and
nothing to any other bucket. -/
theorem recorded_turnover_contributions
    (f : Scanner.AlertFields) (p : Scanner.ParsedAlert)
    (hp : Scanner.parse_alert f = some p) :
    (f.optMatch.isSome →
      p.turnover = ((f.oiMatch.getD 0).natAbs : ℚ) * f.priceMatch.getD 0) ∧
    (f.optMatch = none →
      ∀ lots, f.lotMatch = some lots → p.turnover = (lots : ℚ) * 100000) ∧
    (∀ (buf : List Scanner.ParsedAlert) (k : String × String × String),
      Scanner.aggregateBatch (buf ++ [p]) k =
        Scanner.aggregateBatch buf k + (if Scanner.alertKey p = k then p.turnover else 0)) := by
  refine ⟨?_, ?_, fun buf k => aggregate_append_single buf p k⟩
  · intro hopt
    rcases ho : f.optMatch with _ | ⟨strike, ot⟩
    · rw [ho] at hopt
      simp at hopt
    · rcases hsym : f.symbolMatch with _ | symbol_full
      · simp [Scanner.parse_alert, hsym] at hp
      · rcases hlot : f.lotMatch with _ | lots
        · simp [Scanner.parse_alert, hsym, hlot] at hp
        · rcases hfind : Scanner.TRACK_SYMBOLS.find? (fun s => containsSub symbol_full s)
            with _ | base_symbol
          · simp [Scanner.parse_alert, hsym, hlot, hfind] at hp
          · simp only [Scanner.parse_alert, hsym, hlot, hfind, ho] at hp
            split at hp
            · exact absurd hp.symm (Option.some_ne_none _)
            · cases hp
              rfl
  · intro hnone lots hlots
    rcases hsym : f.symbolMatch with _ | symbol_full
    · simp [Scanner.parse_alert, hsym] at hp
    · rcases hfind : Scanner.TRACK_SYMBOLS.find? (fun s => containsSub symbol_full s)
        with _ | base_symbol
      · simp [Scanner.parse_alert, hsym, hlots, hfind] at hp
      · simp only [Scanner.parse_alert, hsym, hlots, hfind, hnone] at hp
        split at hp
        · exact absurd hp.symm (Option.some_ne_none _)
        · cases hp
          rfl

/-- Witness for C9 on a concrete option alert: OI delta -4500 at price 120
records turnover 4500 × 120 = 540000. -/
theorem recorded_turnover_contributions_witness :
    (⟨"BANKNIFTY", 540000, "PUT_WRITER", none, none⟩ :
        Scanner.ParsedAlert).turnover = (((-4500 : ℤ)).natAbs : ℚ) * 120 := by
  have hp : Scanner.parse_alert
      ⟨"PUT WRITER ALERT", some "BANKNIFTY2656000PE", some 60, some 120,
        some (-4500), none, some (56000, "PE")⟩ =
      some ⟨"BANKNIFTY", 540000, "PUT_WRITER", none, none⟩ := by
    have hfind : Scanner.TRACK_SYMBOLS.find? (fun s => containsSub "BANKNIFTY2656000PE" s) =
        some "BANKNIFTY" := by decide
    have h1 : containsSub "PUT WRITER ALERT" "CALL WRITER" = false := by decide
    have h2 : containsSub "PUT WRITER ALERT" "PUT WRITER" = true := by decide
    simp [Scanner.parse_alert, hfind, h1, h2]
    norm_num
  exact (recorded_turnover_contributions
    ⟨"PUT WRITER ALERT", some "BANKNIFTY2656000PE", some 60, some 120,
      some (-4500), none, some (56000, "PE")⟩
    ⟨"BANKNIFTY", 540000, "PUT_WRITER", none, none⟩ hp).1 (by simp)

/-- Witness for C5 at a concrete input: a BANKNIFTY 49000 call against a
future price of 50000 (band 100) is not ATM. -/
theorem moneyness_zone_characterization_witness :
    (0:ℚ) < 50000 ∧
      (Scanner.classify_strike "BANKNIFTY" 49000 "CE" 50000 = some "ATM" ↔
        |(49000:ℚ) - 50000| ≤ Scanner.atmRangeGet "BANKNIFTY") :=
  ⟨by norm_num, (moneyness_zone_characterization "BANKNIFTY" 49000 50000 (by norm_num)).1⟩
